import Mathlib

/- Shallow embedding of the smart-email-assistant frontend
   (src/frontend/src): the data model, the service helpers in
   services/api.js, the App-level handlers in App.js, the dashboard
   sorting in components/Dashboard.js, the sidebar counts and sync
   gating in components/Sidebar.js, the status cards of
   components/Debugdashboard.js, and the email modal's summary and
   reply tabs.  The Flask backend is not among the sources; the one
   backend operation a claim needs (`regenerate_draft`) is modelled
   from the specification and marked as such below. -/

namespace EmailAssistant

/-- Display priority labels used by the frontend
    (the `'high' / 'medium' / 'normal'` strings of Dashboard.js). -/
inductive Priority where
  | high
  | medium
  | normal
deriving DecidableEq, Repr

/-- An email record as the frontend consumes it from `/api/emails`:
    the fields read by App.js, Dashboard.js, Sidebar.js and the email
    modal.  `timestamp` is the `received_at` instant in epoch
    milliseconds (the value `new Date(email.timestamp)` compares by). -/
structure Email where
  id : String
  sender : String
  sender_name : String
  subject : String
  body : String
  full_body : String
  summary : Option String
  draft_reply : Option String
  has_reply : Bool
  timestamp : Nat
  priority : Priority
deriving DecidableEq, Repr

/-! ### JavaScript string primitives, character-exact on `List Char` -/

/-- `s.toUpperCase()`, character by character. -/
def jsToUpper (s : String) : String := String.mk (s.data.map Char.toUpper)

/-- `s.toLowerCase()`, character by character. -/
def jsToLower (s : String) : String := String.mk (s.data.map Char.toLower)

def trimChars (l : List Char) : List Char :=
  ((l.dropWhile Char.isWhitespace).reverse.dropWhile Char.isWhitespace).reverse

/-- `s.trim()`. -/
def jsTrim (s : String) : String := String.mk (trimChars s.data)

/-- `s.split(c)` for a one-character separator: splits at every
    occurrence and keeps empty parts, exactly as JavaScript does. -/
def splitOnChar (c : Char) : List Char → List (List Char)
  | [] => [[]]
  | x :: xs =>
    match splitOnChar c xs with
    | [] => [[]]
    | p :: ps => if x = c then [] :: p :: ps else (x :: p) :: ps

/-- Remove the first occurrence of the character `c`:
    `s.replace(c, '')` for a one-character pattern. -/
def removeFirstChar (c : Char) : List Char → List Char
  | [] => []
  | x :: xs => if x = c then xs else x :: removeFirstChar c xs

/-- `s.replace(c, '')` for a one-character pattern string. -/
def jsReplaceFirst (s : String) (c : Char) : String :=
  String.mk (removeFirstChar c s.data)

def leadMatch : List Char → List Char → Bool
  | [], _ => true
  | _ :: _, [] => false
  | a :: as, b :: bs => a == b && leadMatch as bs

def containsSeq (needle : List Char) : List Char → Bool
  | [] => needle.isEmpty
  | x :: xs => leadMatch needle (x :: xs) || containsSeq needle xs

/-- `hay.includes(needle)`. -/
def jsIncludes (hay needle : String) : Bool := containsSeq needle.data hay.data

/-! ### JSON-like request/response values -/

/-- JSON-like values exchanged with the backend over axios. -/
inductive JVal where
  | str (s : String)
  | bool (b : Bool)
  | null
  | obj (fields : List (String × JVal))

/-- Property access `v[k]` on a JSON object (`undefined` is `none`). -/
def JVal.get (v : JVal) (k : String) : Option JVal :=
  match v with
  | .obj fs => (fs.find? (fun p => p.1 == k)).map (fun p => p.2)
  | _ => none

/-- JavaScript truthiness of a possibly-absent value. -/
def jsTruthy : Option JVal → Bool
  | some (.str s) => s != ""
  | some (.bool b) => b
  | some .null => false
  | some (.obj _) => true
  | none => false

/-! ### services/api.js -/

/-- `sendReply` (services/api.js) posts to `/api/emails/:id/reply` with
    the request body `{ content }` built from its `content` argument. -/
def sendReplyBody (content : JVal) : JVal := .obj [("content", content)]

/-- `getEmailPriority` (services/api.js): constant `'normal'`.  It is
    defined but never called anywhere in the frontend. -/
def getEmailPriority (_e : Email) : Priority := .normal

/-- `name.split(' ')` as the frontend's `getSenderInitials` computes it. -/
def nameParts (name : String) : List String :=
  (splitOnChar ' ' name.data).map String.mk

/-- `getSenderInitials` (services/api.js), with JavaScript's partiality
    made explicit: `parts[i][0]` is an optional character;
    `undefined + undefined` is `NaN`, whose `.toUpperCase()` throws a
    TypeError (modelled as `none`), while `string + undefined`
    concatenates the text `"undefined"`. -/
def getSenderInitials (name email : String) : Option String :=
  if name ≠ "" then
    if 1 < (nameParts name).length then
      match ((nameParts name).getD 0 "").data.head?,
            ((nameParts name).getD 1 "").data.head? with
      | some a, some b => some (jsToUpper (String.mk [a, b]))
      | some a, none => some (jsToUpper (String.mk [a] ++ "undefined"))
      | none, some b => some (jsToUpper ("undefined" ++ String.mk [b]))
      | none, none => none
    else (((nameParts name).getD 0 "").data.head?).map
      (fun a => jsToUpper (String.mk [a]))
  else if email ≠ "" then
    (email.data.head?).map (fun c => jsToUpper (String.mk [c]))
  else some "?"

/-! ### App.js -/

/-- The two process-wide status flags App.js keeps in React state. -/
structure AppState where
  authenticated : Bool
  ollamaStatus : Bool
deriving DecidableEq, Repr

/-- `checkStatus` (App.js): reads `status.authenticated` and
    `status.ollama_status` from the `/api/status` response and stores
    them in the app state. -/
def checkStatus (statusData : JVal) (s : AppState) : AppState :=
  { s with
    authenticated := jsTruthy (statusData.get "authenticated")
    ollamaStatus := jsTruthy (statusData.get "ollama_status") }

/-- `handleSync` (App.js), measured as the number of
    `POST /api/emails/sync` requests it performs: it returns early
    before any request when not authenticated, and again when the
    Ollama health flag is down; otherwise it performs exactly one. -/
def handleSyncRequests (authenticated ollamaStatus : Bool) : Nat :=
  if !authenticated then 0
  else if !ollamaStatus then 0
  else 1

/-- The `disabled` prop of the sync buttons (App.js header and both
    Sidebar.js variants): `syncing || !authenticated || !ollamaStatus`. -/
def syncButtonDisabled (syncing authenticated ollamaStatus : Bool) : Bool :=
  syncing || !authenticated || !ollamaStatus

/-- The `emailCount` prop App.js passes to the sidebar, displayed by
    the `menuItems` badges of Sidebar.js. -/
structure EmailCount where
  total : Nat
  unreplied : Nat
  replied : Nat
deriving DecidableEq, Repr

/-- App.js: `{ total: emails.length, unreplied: emails.filter(e =>
    !e.has_reply).length, replied: emails.filter(e => e.has_reply).length }`. -/
def emailCount (emails : List Email) : EmailCount :=
  { total := emails.length
    unreplied := (emails.filter (fun e => !e.has_reply)).length
    replied := (emails.filter (fun e => e.has_reply)).length }

/-! ### The email modal (second component of App.js) -/

/-- The request body `handleSendReply` puts on the wire for a given
    reply text: it calls `sendReply(email.id, { content: replyContent })`,
    and `sendReply` wraps that argument once more as `{ content }`. -/
def handleSendReplyRequestBody (replyContent : String) : JVal :=
  sendReplyBody (.obj [("content", .str replyContent)])

/-- `handleSendReply`'s effect on the selected email record: on a
    successful send it builds `{ ...emailDetails, has_reply: true }`
    and propagates it; on a failed send the catch branch leaves the
    record untouched. -/
def handleSendReply (e : Email) (sendSucceeds : Bool) : Email :=
  if sendSucceeds then { e with has_reply := true } else e

/-- What the reply tab shows. -/
inductive ReplyTabView where
  | alreadyReplied
  | compose
deriving DecidableEq, Repr

/-- The reply tab renders the "Already Replied" panel when
    `emailDetails.has_reply` is set, otherwise the compose view whose
    header carries the Regenerate button. -/
def replyTabView (e : Email) : ReplyTabView :=
  if e.has_reply then .alreadyReplied else .compose

/-- Whether a summary line passes the `line.trim() &&` guard. -/
def nonBlank (line : String) : Bool := jsTrim line != ""

/-- The bullet lines the summary tab renders: `summary.split('\n')`,
    keep the lines whose trim is truthy, and show
    `line.replace('•', '').trim()` for each. -/
def renderedSummaryBullets (summary : String) : List String :=
  ((splitOnChar '\n' summary.data).map String.mk).filterMap
    (fun line =>
      if nonBlank line then some (jsTrim (jsReplaceFirst line '•')) else none)

/-! ### components/Dashboard.js -/

/-- The `sortBy` select of Dashboard.js; the state default is
    `'timestamp'`. -/
inductive SortKey where
  | timestamp
  | priority
  | sender
deriving DecidableEq, Repr

/-- Rank of the backend `priority` field:
    `priorityOrder = { high: 3, medium: 2, normal: 1 }`. -/
def priorityOrder : Priority → Nat
  | .high => 3
  | .medium => 2
  | .normal => 1

/-- The comparator `(a, b) => new Date(b.timestamp) - new Date(a.timestamp)`
    lets `a` come no later than `b` exactly when `b.timestamp ≤ a.timestamp`. -/
def tsDescRel (a b : Email) : Prop := b.timestamp ≤ a.timestamp

/-- The comparator
    `(a, b) => priorityOrder[b.priority] - priorityOrder[a.priority]`. -/
def prioDescRel (a b : Email) : Prop :=
  priorityOrder b.priority ≤ priorityOrder a.priority

/-- The comparator `(a, b) => a.sender.localeCompare(b.sender)`. -/
def senderAscRel (a b : Email) : Prop := ¬ b.sender < a.sender

instance : DecidableRel tsDescRel := fun a b =>
  inferInstanceAs (Decidable (b.timestamp ≤ a.timestamp))

instance : DecidableRel prioDescRel := fun a b =>
  inferInstanceAs (Decidable (priorityOrder b.priority ≤ priorityOrder a.priority))

instance : DecidableRel senderAscRel := fun a b =>
  inferInstanceAs (Decidable (¬ b.sender < a.sender))

instance : IsTotal Email tsDescRel :=
  ⟨fun a b => Nat.le_total b.timestamp a.timestamp⟩

instance : IsTrans Email tsDescRel :=
  ⟨fun _ _ _ h1 h2 => Nat.le_trans h2 h1⟩

instance : IsTotal Email prioDescRel :=
  ⟨fun a b => Nat.le_total (priorityOrder b.priority) (priorityOrder a.priority)⟩

instance : IsTrans Email prioDescRel :=
  ⟨fun _ _ _ h1 h2 => Nat.le_trans h2 h1⟩

/-- `sortedEmails` (Dashboard.js): `[...emails].sort(comparator)` with
    the comparator selected by `sortBy`, modelled as sorting with the
    comparator's "may come first" relation. -/
def sortedEmails (sortBy : SortKey) (emails : List Email) : List Email :=
  match sortBy with
  | .timestamp => emails.insertionSort tsDescRel
  | .priority => emails.insertionSort prioDescRel
  | .sender => emails.insertionSort senderAscRel

/-- `getPriority` (Dashboard.js): recomputes a priority label from the
    subject with keyword heuristics.  It is defined but never called
    by the component; the sorting above uses the record's `priority`
    field instead. -/
def getPriority (e : Email) : Priority :=
  if ["urgent", "asap", "immediate", "critical"].any
      (fun k => jsIncludes (jsToLower e.subject) k) then .high
  else if jsIncludes (jsToLower e.subject) "re:" then .medium
  else .normal

/-! ### components/Debugdashboard.js -/

/-- The Ollama status card reads `debugInfo.status?.ollama_status`. -/
def debugOllamaIndicator (statusData : JVal) : Bool :=
  jsTruthy (statusData.get "ollama_status")

/-- The last-sync card reads `debugInfo.status?.last_sync`. -/
def debugLastSyncValue (statusData : JVal) : Option JVal :=
  statusData.get "last_sync"

/-! ### The backend `regenerate_draft` operation (spec-modelled) -/

/-- Tri-state relevance of a backend message record (spec data model). -/
inductive Relevance where
  | unknown
  | relevant
  | filtered
deriving DecidableEq, Repr

/-- Modelled from the spec: the backend Message record of the data
    model section; the Flask backend is not among the sources, only
    its frontend callers are. -/
structure MessageRecord where
  id : String
  has_reply : Bool
  is_relevant : Relevance
  draft_reply : Option String
  summary : Option String
deriving DecidableEq, Repr

/-- Failure modes of `regenerate_draft` per the spec's external
    interface contract. -/
inductive RegenError where
  | alreadyReplied
  | notRelevant
  | inferenceUnavailable
deriving DecidableEq, Repr

/-- Modelled from the spec: the backend operation
    `regenerate_draft(id) -> new DraftText`, absent from the sources
    (only its caller `handleRegenerateReply` is present).  Per the
    external-interface contract it fails with `AlreadyReplied` if
    `has_reply` is true, `NotRelevant` if the message was filtered,
    `InferenceUnavailable` if the backend health check fails, and
    otherwise stores and returns a fresh draft.  The result pairs the
    operation's outcome with the message record afterwards. -/
def regenerate_draft (inferenceAvailable : Bool) (newDraft : String)
    (m : MessageRecord) : Except RegenError String × MessageRecord :=
  if m.has_reply then (.error .alreadyReplied, m)
  else if m.is_relevant = .filtered then (.error .notRelevant, m)
  else if !inferenceAvailable then (.error .inferenceUnavailable, m)
  else (.ok newDraft, { m with draft_reply := some newDraft })

/-! ### Concrete records used by the priority-sorting claim -/

/-- An email whose subject contains an urgency keyword while its
    backend `priority` field says `normal`. -/
def urgentSubjectEmail : Email :=
  { id := "e1", sender := "a@x.com", sender_name := "A",
    subject := "URGENT: budget", body := "", full_body := "",
    summary := none, draft_reply := none, has_reply := false,
    timestamp := 10, priority := .normal }

/-- An email with a plain subject whose backend `priority` field says
    `high`. -/
def highPriorityEmail : Email :=
  { id := "e2", sender := "b@x.com", sender_name := "B",
    subject := "hello", body := "", full_body := "",
    summary := none, draft_reply := none, has_reply := false,
    timestamp := 5, priority := .high }

/-- `urgentSubjectEmail` with a different subject but the same
    backend `priority` field. -/
def plainSubjectEmail : Email :=
  { urgentSubjectEmail with subject := "hello there" }

/-- The `/api/status` payload shaped exactly as the spec's
    `get_status` contract names its fields. -/
def specContractStatus : JVal :=
  .obj [("authenticated", .bool true), ("inference_available", .bool true),
        ("last_sync", .null)]

/-! ### Helper lemmas -/

theorem splitOnChar_ne_nil (c : Char) (l : List Char) : splitOnChar c l ≠ [] := by
  induction l with
  | nil => simp [splitOnChar]
  | cons x xs ih =>
    simp only [splitOnChar]
    split
    · simp
    · split <;> simp

theorem ne_empty_data (s : String) (h : s ≠ "") : ∃ c t, s.data = c :: t := by
  cases s with
  | mk data =>
    cases data with
    | nil => exact absurd rfl h
    | cons c t => exact ⟨c, t, rfl⟩

theorem mk_cons_ne_empty (c : Char) (t : List Char) : String.mk (c :: t) ≠ "" := by
  intro h
  simpa using congrArg String.data h

theorem filterMap_if_eq_map_filter {α β : Type} (p : α → Bool) (g : α → β) :
    ∀ l : List α,
      l.filterMap (fun a => if p a then some (g a) else none)
        = (l.filter p).map g := by
  intro l
  induction l with
  | nil => rfl
  | cons x xs ih =>
    by_cases h : p x <;> simp [List.filterMap_cons, List.filter_cons, h, ih]

/-! ### Claim theorems -/

/-- Claim C1 (code bug): the send-reply operation does NOT transmit the
    user's text as the request body's `content` field.  For the concrete
    scenario of sending `"Approved."`, the modal's `handleSendReply`
    passes `{ content: replyContent }` to `sendReply`, which wraps its
    argument once more as `{ content }`, so the body's `content` field is
    the doubly wrapped object `{ content: "Approved." }` rather than the
    string `"Approved."` itself — contradicting both the claim and the
    wrapping `sendReply` itself performs (whose `content` parameter is
    plainly meant to be the raw text). -/
theorem sendReply_content_double_wrapped :
    (handleSendReplyRequestBody "Approved.").get "content"
      = some (.obj [("content", .str "Approved.")]) ∧
    (handleSendReplyRequestBody "Approved.").get "content"
      ≠ some (.str "Approved.") := by
  constructor
  · rfl
  · intro h
    simp [handleSendReplyRequestBody, sendReplyBody, JVal.get] at h

/-- Claim C2: on a message whose `has_reply` is true, `regenerate_draft`
    always fails with `AlreadyReplied` and returns the record unchanged
    (so `draft_reply` is never mutated), and the frontend's reply tab
    never offers regeneration on an already-replied message: it renders
    the Already-Replied panel, which carries no Regenerate button. -/
theorem regenerate_draft_guard :
    (∀ (inferenceAvailable : Bool) (newDraft : String) (m : MessageRecord),
        m.has_reply = true →
          regenerate_draft inferenceAvailable newDraft m
            = (.error .alreadyReplied, m)) ∧
    (∀ e : Email, e.has_reply = true → replyTabView e = .alreadyReplied) := by
  constructor
  · intro inferenceAvailable newDraft m h
    simp [regenerate_draft, h]
  · intro e h
    simp [replyTabView, h]

theorem regenerate_draft_guard_witness :
    regenerate_draft true "New draft"
        ⟨"m1", true, .relevant, some "old draft", some "sum"⟩
      = (.error .alreadyReplied,
         ⟨"m1", true, .relevant, some "old draft", some "sum"⟩) ∧
    replyTabView ⟨"m1", "a@b.c", "Ann", "Re: Budget", "b", "f", some "sum",
        some "old draft", true, 5, .normal⟩ = .alreadyReplied :=
  ⟨regenerate_draft_guard.1 true "New draft" _ rfl,
   regenerate_draft_guard.2 _ rfl⟩

/-- Claim C3: a successful send sets `has_reply` to `true` via
    `{ ...emailDetails, has_reply: true }` and leaves every other field
    of the record unchanged; on send failure the catch branch performs
    no state update, so the record (in particular `has_reply`) is
    exactly what it was. -/
theorem handleSendReply_frame (e : Email) :
    (handleSendReply e true).has_reply = true ∧
    (handleSendReply e true).id = e.id ∧
    (handleSendReply e true).sender = e.sender ∧
    (handleSendReply e true).sender_name = e.sender_name ∧
    (handleSendReply e true).subject = e.subject ∧
    (handleSendReply e true).body = e.body ∧
    (handleSendReply e true).full_body = e.full_body ∧
    (handleSendReply e true).summary = e.summary ∧
    (handleSendReply e true).draft_reply = e.draft_reply ∧
    (handleSendReply e true).timestamp = e.timestamp ∧
    (handleSendReply e true).priority = e.priority ∧
    handleSendReply e false = e :=
  ⟨rfl, rfl, rfl, rfl, rfl, rfl, rfl, rfl, rfl, rfl, rfl, rfl⟩

/-- Claim C4: when the Ollama health flag is down, or authentication is
    absent, `handleSync` performs zero sync requests (it returns before
    calling `syncEmails`), and the sync button is disabled whenever the
    health flag is down. -/
theorem handleSync_short_circuit :
    (∀ authenticated ollamaStatus : Bool,
        ollamaStatus = false ∨ authenticated = false →
          handleSyncRequests authenticated ollamaStatus = 0) ∧
    (∀ syncing authenticated : Bool,
        syncButtonDisabled syncing authenticated false = true) := by
  constructor
  · intro a o h
    rcases h with h | h
    · subst h
      cases a <;> rfl
    · subst h
      rfl
  · intro syncing authenticated
    cases syncing <;> cases authenticated <;> rfl

theorem handleSync_short_circuit_witness :
    handleSyncRequests true false = 0 ∧
    syncButtonDisabled false true false = true :=
  ⟨handleSync_short_circuit.1 true false (Or.inl rfl),
   handleSync_short_circuit.2 false true⟩

/-- Claim C5: the priority used for sorting in the dashboard is the
    backend-provided `priority` field and nothing else: the comparator
    relation depends only on that field (so no recomputation from
    message content can influence it), the priority-sorted listing is a
    permutation ordered by descending backend priority rank, and on a
    concrete pair where the keyword heuristic `getPriority` (dead code)
    disagrees with the stored field, the displayed order follows the
    stored field. -/
theorem prioritySort_reads_backend_priority :
    (∀ a b a2 b2 : Email, a.priority = a2.priority → b.priority = b2.priority →
        (prioDescRel a b ↔ prioDescRel a2 b2)) ∧
    (∀ l : List Email,
        List.Pairwise
          (fun a b => priorityOrder b.priority ≤ priorityOrder a.priority)
          (sortedEmails .priority l) ∧ (sortedEmails .priority l).Perm l) ∧
    (getPriority urgentSubjectEmail = .high ∧
      urgentSubjectEmail.priority = .normal ∧
      sortedEmails .priority [urgentSubjectEmail, highPriorityEmail]
        = [highPriorityEmail, urgentSubjectEmail]) := by
  refine ⟨?_, ?_, by decide, rfl, by decide⟩
  · intro a b a2 b2 h1 h2
    simp [prioDescRel, h1, h2]
  · intro l
    exact ⟨List.sorted_insertionSort prioDescRel l,
           List.perm_insertionSort prioDescRel l⟩

theorem prioritySort_reads_backend_priority_witness :
    prioDescRel urgentSubjectEmail highPriorityEmail ↔
      prioDescRel plainSubjectEmail highPriorityEmail :=
  prioritySort_reads_backend_priority.1 urgentSubjectEmail highPriorityEmail
    plainSubjectEmail highPriorityEmail rfl rfl

/-- Claim C6 (counterexample): consumers of the status result do not
    read the inference-availability flag under the contract's field name
    `inference_available`.  Feeding the consumers a payload shaped
    exactly as the contract — with `inference_available: true` — both
    `checkStatus` and the debug dashboard's indicator come out `false`,
    because they read the field `ollama_status` instead. -/
theorem checkStatus_ignores_contract_field :
    specContractStatus.get "inference_available" = some (.bool true) ∧
    (checkStatus specContractStatus ⟨false, false⟩).ollamaStatus = false ∧
    debugOllamaIndicator specContractStatus = false :=
  ⟨rfl, rfl, rfl⟩

/-- Claim C6 (amended): every consumer reads the inference-availability
    flag under the field name `ollama_status` (and the other fields
    under `authenticated` and `last_sync`): on a payload carrying those
    names, `checkStatus` stores exactly the two flags and the debug
    dashboard reads exactly the flag and the last-sync value. -/
theorem statusConsumers_read_ollama_status (a o : Bool) (lastSync : JVal)
    (s : AppState) :
    checkStatus (.obj [("authenticated", .bool a), ("ollama_status", .bool o),
        ("last_sync", lastSync)]) s = ⟨a, o⟩ ∧
    debugOllamaIndicator (.obj [("authenticated", .bool a),
        ("ollama_status", .bool o), ("last_sync", lastSync)]) = o ∧
    debugLastSyncValue (.obj [("authenticated", .bool a),
        ("ollama_status", .bool o), ("last_sync", lastSync)]) = some lastSync := by
  cases s
  exact ⟨rfl, rfl, rfl⟩

/-- Claim C7: under the default `'timestamp'` ordering the displayed
    sequence is a permutation of the input sorted by `timestamp`
    (the `received_at` instant) in descending order — every email comes
    no later than any email with a smaller timestamp, hence before all
    emails with a strictly earlier one. -/
theorem listedEmails_sorted_by_received_desc (l : List Email) :
    List.Pairwise (fun a b => b.timestamp ≤ a.timestamp)
      (sortedEmails .timestamp l) ∧
    (sortedEmails .timestamp l).Perm l :=
  ⟨List.sorted_insertionSort tsDescRel l, List.perm_insertionSort tsDescRel l⟩

/-- Claim C8 (counterexample): the renderer does not merely strip a
    leading bullet character.  The single non-blank line
    `"Hello • world"` has no leading bullet and no surrounding
    whitespace, so under the claim it would render unchanged; the code
    removes the first `•` anywhere in the line and renders
    `"Hello  world"`. -/
theorem summaryRender_strips_interior_bullet :
    renderedSummaryBullets "Hello • world" = ["Hello  world"] ∧
    jsTrim "Hello • world" = "Hello • world" ∧
    ("Hello  world" : String) ≠ "Hello • world" :=
  ⟨by decide, by decide, by decide⟩

/-- Claim C8 (amended): the summary tab renders exactly one bullet per
    non-blank newline-separated line of the summary, and the rendered
    text of each such line is the line with the first occurrence of the
    bullet character `•` (anywhere in the line, not only leading)
    removed and surrounding whitespace trimmed. -/
theorem renderedSummaryBullets_per_line (summary : String) :
    renderedSummaryBullets summary
      = (((splitOnChar '\n' summary.data).map String.mk).filter nonBlank).map
          (fun line => jsTrim (jsReplaceFirst line '•')) ∧
    (renderedSummaryBullets summary).length
      = (((splitOnChar '\n' summary.data).map String.mk).filter nonBlank).length := by
  have h : renderedSummaryBullets summary
      = (((splitOnChar '\n' summary.data).map String.mk).filter nonBlank).map
          (fun line => jsTrim (jsReplaceFirst line '•')) :=
    filterMap_if_eq_map_filter nonBlank
      (fun line => jsTrim (jsReplaceFirst line '•'))
      ((splitOnChar '\n' summary.data).map String.mk)
  exact ⟨h, by rw [h, List.length_map]⟩

/-- Claim C9 (counterexample): `getSenderInitials` does not return a
    non-empty uppercase string on every input pair with one component
    non-empty.  On the non-empty name `" "` both `parts[0][0]` and
    `parts[1][0]` are `undefined`, their sum is `NaN`, and
    `NaN.toUpperCase()` throws a TypeError — the call returns no string
    at all. -/
theorem getSenderInitials_blank_name_throws :
    ((" " : String) ≠ "" ∨ ("x@y.com" : String) ≠ "") ∧
    getSenderInitials " " "x@y.com" = none :=
  ⟨Or.inl (by decide), by decide⟩

/-- Claim C9 (amended): when additionally each of the first two
    space-separated parts of a non-empty name is itself non-empty,
    `getSenderInitials` returns a non-empty string: the uppercased first
    letters of the first two parts when the name has two or more parts,
    the uppercased first letter of the single part when it has one, the
    uppercased first character of the email when the name is empty, and
    `"?"` when both are empty. -/
theorem getSenderInitials_spec (name email : String)
    (hp : name ≠ "" → ∀ p ∈ (nameParts name).take 2, p ≠ "")
    (hne : name ≠ "" ∨ email ≠ "") :
    (∃ s, getSenderInitials name email = some s ∧ s ≠ "" ∧
      (∀ p0 p1 rest, nameParts name = p0 :: p1 :: rest → name ≠ "" →
        ∃ a ta b tb, p0.data = a :: ta ∧ p1.data = b :: tb ∧
          s = String.mk [a.toUpper, b.toUpper]) ∧
      (∀ p0, nameParts name = [p0] → name ≠ "" →
        ∃ a ta, p0.data = a :: ta ∧ s = String.mk [a.toUpper]) ∧
      (name = "" → ∃ c tc, email.data = c :: tc ∧ s = String.mk [c.toUpper])) ∧
    getSenderInitials "" "" = some "?" := by
  refine ⟨?_, rfl⟩
  by_cases hn : name = ""
  · subst hn
    rcases hne with h | he
    · exact absurd rfl h
    · obtain ⟨c, tc, hc⟩ := ne_empty_data email he
      refine ⟨jsToUpper (String.mk [c]), ?_, ?_, ?_, ?_, ?_⟩
      · simp [getSenderInitials, he, hc]
      · exact mk_cons_ne_empty c.toUpper []
      · intro p0 p1 rest _ hne2
        exact absurd rfl hne2
      · intro p0 _ hne2
        exact absurd rfl hne2
      · intro _
        exact ⟨c, tc, hc, rfl⟩
  · have hp2 := hp hn
    rcases hps : nameParts name with _ | ⟨p0, rest0⟩
    · exfalso
      apply splitOnChar_ne_nil ' ' name.data
      simpa [nameParts, List.map_eq_nil_iff] using hps
    · rcases rest0 with _ | ⟨p1, rest⟩
      · have hp0 : p0 ≠ "" := hp2 p0 (by simp [hps])
        obtain ⟨a, ta, ha⟩ := ne_empty_data p0 hp0
        refine ⟨jsToUpper (String.mk [a]), ?_, ?_, ?_, ?_, ?_⟩
        · simp [getSenderInitials, hn, hps, ha]
        · exact mk_cons_ne_empty a.toUpper []
        · intro q0 q1 qr hq _
          simp at hq
        · intro q0 hq _
          obtain rfl : p0 = q0 := by injection hq
          exact ⟨a, ta, ha, rfl⟩
        · intro h0
          exact absurd h0 hn
      · have hp0 : p0 ≠ "" := hp2 p0 (by simp [hps])
        have hp1 : p1 ≠ "" := hp2 p1 (by simp [hps])
        obtain ⟨a, ta, ha⟩ := ne_empty_data p0 hp0
        obtain ⟨b, tb, hb⟩ := ne_empty_data p1 hp1
        have hlen : 1 < (nameParts name).length := by
          rw [hps]
          simp
        refine ⟨jsToUpper (String.mk [a, b]), ?_, ?_, ?_, ?_, ?_⟩
        · simp [getSenderInitials, hn, hps, hlen, ha, hb]
        · exact mk_cons_ne_empty a.toUpper [b.toUpper]
        · intro q0 q1 qr hq _
          injection hq with h1 h2
          injection h2 with h3 h4
          subst h1
          subst h3
          exact ⟨a, ta, b, tb, ha, hb, rfl⟩
        · intro q0 hq _
          simp at hq
        · intro h0
          exact absurd h0 hn

theorem getSenderInitials_spec_witness :
    (∃ s, getSenderInitials "John Doe" "" = some s ∧ s ≠ "" ∧
      (∀ p0 p1 rest, nameParts "John Doe" = p0 :: p1 :: rest →
          ("John Doe" : String) ≠ "" →
        ∃ a ta b tb, p0.data = a :: ta ∧ p1.data = b :: tb ∧
          s = String.mk [a.toUpper, b.toUpper]) ∧
      (∀ p0, nameParts "John Doe" = [p0] → ("John Doe" : String) ≠ "" →
        ∃ a ta, p0.data = a :: ta ∧ s = String.mk [a.toUpper]) ∧
      (("John Doe" : String) = "" →
        ∃ c tc, ("" : String).data = c :: tc ∧ s = String.mk [c.toUpper])) ∧
    getSenderInitials "" "" = some "?" :=
  getSenderInitials_spec "John Doe" "" (fun _ => by decide) (Or.inl (by decide))

/-- Claim C10: the sidebar counts partition the email list: the
    unreplied count plus the replied count equals the total, where an
    email is counted as replied exactly when `has_reply` is truthy. -/
theorem emailCount_partition (emails : List Email) :
    (emailCount emails).unreplied + (emailCount emails).replied
      = (emailCount emails).total := by
  simp only [emailCount]
  induction emails with
  | nil => rfl
  | cons e es ih =>
    cases h : e.has_reply <;>
      simp [List.filter_cons, h, List.length_cons] <;> omega

end EmailAssistant
